import Mathlib

/-!
Verification of the Signature-Injection-Engine core against its design spec.

The development shallowly embeds the two algorithmic subsystems:
- the coordinate transform engine (src/server/utils/coordinateTransform.js), and
- the PDF overlay engine (the signer module: calculateFitDimensions, signPDF,
  signPDFMultiple, computeSHA256).

JavaScript numbers are modelled as rationals (the functions under test use only
field operations and comparisons; no claim in scope depends on float rounding).
Fallible operations are modelled with Except; absent (undefined/null) object
parameters are modelled with Option.
-/

deriving instance DecidableEq for Except

namespace SigEngine

/-- Rectangle record with fields x, y, width, height, as used throughout the
coordinate transform engine. -/
structure Rect where
  x : ℚ
  y : ℚ
  width : ℚ
  height : ℚ
  deriving DecidableEq, Repr

/-- Width/height pair: models both containerSize (viewport pixels) and
pdfPageSize (points). -/
structure Size where
  width : ℚ
  height : ℚ
  deriving DecidableEq, Repr

/-- Model of Math.max(0, Math.min(1, v)), the componentwise clamp used at
lines 58-63 of coordinateTransform.js. -/
def clamp01 (v : ℚ) : ℚ := max 0 (min 1 v)

/-- The scale factor and centering offsets of the contain fit. -/
structure FitParams where
  scaleFactor : ℚ
  offsetX : ℚ
  offsetY : ℚ
  deriving DecidableEq, Repr

/-- The scale/offset block that appears verbatim both in
normalizeFrontendCoordinates (lines 30-49) and in transformPDFToFrontend
(lines 133-148) of coordinateTransform.js; factored here so that the two call
sites provably compute identical parameters. -/
def containFit (containerSize pdfPageSize : Size) : FitParams :=
  let pdfAspect := pdfPageSize.width / pdfPageSize.height
  let containerAspect := containerSize.width / containerSize.height
  if pdfAspect > containerAspect then
    let scaleFactor := containerSize.width / pdfPageSize.width
    { scaleFactor := scaleFactor
      offsetX := 0
      offsetY := (containerSize.height - pdfPageSize.height * scaleFactor) / 2 }
  else
    let scaleFactor := containerSize.height / pdfPageSize.height
    { scaleFactor := scaleFactor
      offsetX := (containerSize.width - pdfPageSize.width * scaleFactor) / 2
      offsetY := 0 }

/-- The pre-clamp normalized values of lines 51-55 of coordinateTransform.js:
normalizedX = (frontendX - offsetX) / scaleFactor / pdfWidth, and similarly for
y, width, height. -/
def unclampedNormalized (frontendCoords : Rect) (containerSize pdfPageSize : Size) : Rect :=
  let p := containFit containerSize pdfPageSize
  { x := (frontendCoords.x - p.offsetX) / p.scaleFactor / pdfPageSize.width
    y := (frontendCoords.y - p.offsetY) / p.scaleFactor / pdfPageSize.height
    width := frontendCoords.width / p.scaleFactor / pdfPageSize.width
    height := frontendCoords.height / p.scaleFactor / pdfPageSize.height }

/-- Body of normalizeFrontendCoordinates once the parameter-presence check has
passed: normalize then clamp each component to [0, 1] independently
(lines 26-63 of coordinateTransform.js). -/
def normalizeCore (frontendCoords : Rect) (containerSize pdfPageSize : Size) : Rect :=
  let u := unclampedNormalized frontendCoords containerSize pdfPageSize
  { x := clamp01 u.x
    y := clamp01 u.y
    width := clamp01 u.width
    height := clamp01 u.height }

/-- normalizeFrontendCoordinates (lines 21-64). The source throws
"Missing required parameters for coordinate normalization" when any of the
three object arguments is absent; absent arguments are modelled as none and
the throw as Except.error. -/
def normalizeFrontendCoordinates (frontendCoords : Option Rect)
    (containerSize pdfPageSize : Option Size) : Except String Rect :=
  match frontendCoords, containerSize, pdfPageSize with
  | some fc, some cs, some ps => .ok (normalizeCore fc cs ps)
  | _, _, _ => .error "Missing required parameters for coordinate normalization"

/-- normalizedToPDFPoints (lines 73-92): converts a normalized rectangle to
document points, flipping the Y axis:
pointY = pdfHeight - (y + height) * pdfHeight. -/
def normalizedToPDFPoints (normalized : Rect) (pdfPageSize : Size) : Rect :=
  { x := normalized.x * pdfPageSize.width
    y := pdfPageSize.height - (normalized.y + normalized.height) * pdfPageSize.height
    width := normalized.width * pdfPageSize.width
    height := normalized.height * pdfPageSize.height }

/-- Return shape of transformFrontendToPDF: the PDF-point rectangle spread
together with the normalized rectangle kept for reference. -/
structure TransformResult where
  pdfPoints : Rect
  normalized : Rect
  deriving DecidableEq, Repr

/-- transformFrontendToPDF (lines 102-117): normalize (which performs the
missing-parameter check), then convert to PDF points. -/
def transformFrontendToPDF (frontendCoords : Option Rect)
    (containerSize pdfPageSize : Option Size) : Except String TransformResult :=
  match frontendCoords, containerSize, pdfPageSize with
  | some fc, some cs, some ps =>
    let normalized := normalizeCore fc cs ps
    .ok { pdfPoints := normalizedToPDFPoints normalized ps, normalized := normalized }
  | _, _, _ => .error "Missing required parameters for coordinate normalization"

/-- transformPDFToFrontend (lines 128-162): recomputes the contain-fit
parameters from the same viewport/page pair and maps document points back to
viewport pixels. -/
def transformPDFToFrontend (pdfCoords : Rect) (containerSize pdfPageSize : Size) : Rect :=
  let p := containFit containerSize pdfPageSize
  let normalizedX := pdfCoords.x / pdfPageSize.width
  let normalizedY := pdfPageSize.height - (pdfCoords.y + pdfCoords.height)
  let normalizedYTop := normalizedY / pdfPageSize.height
  { x := normalizedX * pdfPageSize.width * p.scaleFactor + p.offsetX
    y := normalizedYTop * pdfPageSize.height * p.scaleFactor + p.offsetY
    width := pdfCoords.width * p.scaleFactor
    height := pdfCoords.height * p.scaleFactor }

/-- isValidNormalizedCoordinate (lines 169-179). -/
def isValidNormalizedCoordinate (normalized : Rect) : Bool :=
  decide (0 ≤ normalized.x) && decide (normalized.x ≤ 1) &&
  decide (0 ≤ normalized.y) && decide (normalized.y ≤ 1) &&
  decide (0 < normalized.width) && decide (normalized.width ≤ 1) &&
  decide (0 < normalized.height) && decide (normalized.height ≤ 1) &&
  decide (normalized.x + normalized.width ≤ 1) &&
  decide (normalized.y + normalized.height ≤ 1)

/-- Observer telling whether an Except value is the error branch (a thrown
JavaScript exception in the source). -/
def isError {α : Type} (e : Except String α) : Bool :=
  match e with
  | .error _ => true
  | .ok _ => false

/-- Result record of calculateFitDimensions. -/
structure FitResult where
  width : ℚ
  height : ℚ
  offsetX : ℚ
  offsetY : ℚ
  deriving DecidableEq, Repr

/-- calculateFitDimensions (lines 24-45 of the signer module): contain-fit of an
image into a box, preserving aspect ratio, plus centering offsets
offsetX = (boxWidth - fitWidth) / 2 and offsetY = (boxHeight - fitHeight) / 2. -/
def calculateFitDimensions (imageWidth imageHeight boxWidth boxHeight : ℚ) : FitResult :=
  let imageAspect := imageWidth / imageHeight
  let boxAspect := boxWidth / boxHeight
  if imageAspect > boxAspect then
    { width := boxWidth
      height := boxWidth / imageAspect
      offsetX := (boxWidth - boxWidth) / 2
      offsetY := (boxHeight - boxWidth / imageAspect) / 2 }
  else
    { width := boxHeight * imageAspect
      height := boxHeight
      offsetX := (boxWidth - boxHeight * imageAspect) / 2
      offsetY := (boxHeight - boxHeight) / 2 }

/-! ## Overlay engine (signer module) -/

/-- The two raster encodings supported by the signer. -/
inductive ImgKind
  | png
  | jpeg
  deriving DecidableEq, Repr

/-- Abstraction of the base64 signature image string and its decodability:
containsPng / containsJpeg model signatureData.image.includes("png") (resp.
"jpeg"); pngDecode / jpegDecode give the image dimensions when
pdfDoc.embedPng (resp. embedJpeg) succeeds on the decoded buffer, none when
that embed call throws. -/
structure SigImage where
  containsPng : Bool
  containsJpeg : Bool
  pngDecode : Option (ℚ × ℚ)
  jpegDecode : Option (ℚ × ℚ)
  deriving DecidableEq, Repr

/-- Model of the JavaScript value stored in signatureData.pageIndex, covering
the falsy non-numbers the source can receive. -/
inductive JSPageIndex
  | undef
  | null
  | nan
  | num (n : Int)
  deriving DecidableEq, Repr

/-- JavaScript falsiness of the pageIndex value (undefined, null, NaN and 0 are
falsy). -/
def JSPageIndex.isFalsy : JSPageIndex → Bool
  | .undef => true
  | .null => true
  | .nan => true
  | .num n => n == 0

/-- Model of "signatureData.pageIndex || 0" (line 97 of the signer): a falsy
value yields 0, and a truthy number yields itself; since the number 0 is
itself falsy, every number resolves to itself. -/
def resolvePageIndex : JSPageIndex → Int
  | .num n => n
  | _ => 0

/-- The signatureData object passed to signPDF (image payload, placement box in
points, page index, caller metadata). -/
structure SignatureData where
  image : SigImage
  imageType : Option String
  x : ℚ
  y : ℚ
  width : ℚ
  height : ℚ
  pageIndex : JSPageIndex
  metadata : List (String × String)
  deriving DecidableEq, Repr

/-- A drawing operation recorded on a page: page.drawImage (with the drawn
position/size and the embedded image dimensions) or the debug
page.drawRectangle. -/
inductive PageOp
  | drawImage (x y width height imageWidth imageHeight : ℚ)
  | drawRectangle (x y width height : ℚ)
  deriving DecidableEq, Repr

/-- A page of the pdf-lib document model: its size in points and its content
operations in draw order. -/
structure PDFPage where
  width : ℚ
  height : ℚ
  ops : List PageOp
  deriving DecidableEq, Repr

/-- The in-memory pdf-lib document model: its ordered pages. -/
structure PDFLibDoc where
  pages : List PDFPage
  deriving DecidableEq, Repr

/-- Abstraction of a Node Buffer holding a PDF: either pdf-lib can parse it
into a document, or parsing throws (malformed, tagged by an arbitrary id so
distinct malformed buffers stay distinct). -/
inductive PDFBytes
  | malformed (id : Nat)
  | wellFormed (doc : PDFLibDoc)
  deriving DecidableEq, Repr

/-- An integrity digest. SHA-256 is an external crypto primitive; it is
modelled as an opaque deterministic injection of the hashed buffer, which
preserves exactly the properties the claims use (determinism and which buffer
was hashed). -/
structure Digest where
  ofBuffer : PDFBytes
  deriving DecidableEq, Repr

/-- computeSHA256 (lines 64-66 of the signer), under the digest model above. -/
def computeSHA256 (buffer : PDFBytes) : Digest := ⟨buffer⟩

/-- Errors thrown inside signPDF, as distinguishable values. -/
inductive SignError
  | loadFailed (id : Nat)
  | invalidPageIndex (pageIndex : Int) (totalPages : Nat)
  | embedFailed
  deriving DecidableEq, Repr

/-- The message strings of the thrown errors. The invalid-page-index message is
the template of line 99 of the signer and embeds the actual page count. -/
def SignError.message : SignError → String
  | .loadFailed _ => "Failed to parse PDF document"
  | .invalidPageIndex p t =>
      ("Invalid page index: " ++ toString p ++ ". Document has ") ++ toString t ++ " pages."
  | .embedFailed => "Failed to embed signature image"

/-- PDFDocument.load of pdf-lib: parses a buffer or throws on malformed input. -/
def PDFDocument.load : PDFBytes → Except SignError PDFLibDoc
  | .malformed id => .error (.loadFailed id)
  | .wellFormed doc => .ok doc

/-- PDFDocument.save of pdf-lib, modelled as the (deterministic) serialization
of the document model. -/
def PDFDocument.save (doc : PDFLibDoc) : PDFBytes := .wellFormed doc

/-- Append a drawing operation to the ops of the page at the given index,
leaving every other page unchanged. -/
def drawOnPages : List PDFPage → Nat → PageOp → List PDFPage
  | [], _, _ => []
  | p :: rest, 0, op => { p with ops := p.ops ++ [op] } :: rest
  | p :: rest, Nat.succ i, op => p :: drawOnPages rest i op

/-- Document-level view of drawOnPages. -/
def drawOnPage (doc : PDFLibDoc) (pageIndex : Nat) (op : PageOp) : PDFLibDoc :=
  ⟨drawOnPages doc.pages pageIndex op⟩

/-- Which embed calls the decode block of signPDF (lines 110-123) executes, in
order: a declared or string-marked png runs embedPng only; a declared or
string-marked jpeg runs embedJpeg only; otherwise embedPng is tried and
embedJpeg runs only if embedPng throws. -/
def embedAttempts (signatureData : SignatureData) : List ImgKind :=
  if signatureData.imageType == some "png" || signatureData.image.containsPng then
    [.png]
  else if signatureData.imageType == some "jpeg" || signatureData.image.containsJpeg then
    [.jpeg]
  else if signatureData.image.pngDecode.isSome then
    [.png]
  else
    [.png, .jpeg]

/-- Result of the decode block of signPDF (lines 106-126): the dimensions of
the embedded image, or the wrapped error thrown by the outer catch. -/
def embedImage (signatureData : SignatureData) : Except SignError (ℚ × ℚ) :=
  if signatureData.imageType == some "png" || signatureData.image.containsPng then
    match signatureData.image.pngDecode with
    | some dims => .ok dims
    | none => .error .embedFailed
  else if signatureData.imageType == some "jpeg" || signatureData.image.containsJpeg then
    match signatureData.image.jpegDecode with
    | some dims => .ok dims
    | none => .error .embedFailed
  else
    match signatureData.image.pngDecode with
    | some dims => .ok dims
    | none =>
      match signatureData.image.jpegDecode with
      | some dims => .ok dims
      | none => .error .embedFailed

/-- Image fit facts recorded in the audit log. -/
structure ImageInfo where
  originalWidth : ℚ
  originalHeight : ℚ
  fitWidth : ℚ
  fitHeight : ℚ
  offsetX : ℚ
  offsetY : ℚ
  deriving DecidableEq, Repr

/-- The audit log object assembled by signPDF (lines 171-192). -/
structure AuditLog where
  timestamp : String
  originalHash : Digest
  signedHash : Digest
  pageIndex : Int
  pageSize : Size
  signatureBox : Rect
  imageInfo : ImageInfo
  metadata : List (String × String)
  deriving DecidableEq, Repr

/-- The return record of signPDF. -/
structure SignPDFResult where
  signedPDFBuffer : PDFBytes
  originalHash : Digest
  signedHash : Digest
  auditLog : AuditLog
  deriving DecidableEq, Repr

/-- signPDF (lines 88-200 of the signer). External effects are explicit
parameters: now models new Date().toISOString() read at line 172, and debugBox
models process.env.DEBUG_SIGNATURE_BOX === "true" read at line 153. -/
def signPDF (debugBox : Bool) (now : String) (originalPDFBuffer : PDFBytes)
    (signatureData : SignatureData) : Except SignError SignPDFResult :=
  let originalHash := computeSHA256 originalPDFBuffer
  match PDFDocument.load originalPDFBuffer with
  | .error e => .error e
  | .ok pdfDoc =>
    let totalPages := pdfDoc.pages.length
    let pageIndex := resolvePageIndex signatureData.pageIndex
    if pageIndex < 0 ∨ (totalPages : Int) ≤ pageIndex then
      .error (.invalidPageIndex pageIndex totalPages)
    else
      let page := pdfDoc.pages.getD pageIndex.toNat ⟨0, 0, []⟩
      match embedImage signatureData with
      | .error e => .error e
      | .ok (imageWidth, imageHeight) =>
        let fit := calculateFitDimensions imageWidth imageHeight
          signatureData.width signatureData.height
        let signX := signatureData.x + fit.offsetX
        let signY := signatureData.y + fit.offsetY
        let doc1 := drawOnPage pdfDoc pageIndex.toNat
          (.drawImage signX signY fit.width fit.height imageWidth imageHeight)
        let doc2 :=
          if debugBox then
            drawOnPage doc1 pageIndex.toNat
              (.drawRectangle signatureData.x signatureData.y
                signatureData.width signatureData.height)
          else doc1
        let signedPDFBuffer := PDFDocument.save doc2
        let signedHash := computeSHA256 signedPDFBuffer
        .ok
          { signedPDFBuffer := signedPDFBuffer
            originalHash := originalHash
            signedHash := signedHash
            auditLog :=
              { timestamp := now
                originalHash := originalHash
                signedHash := signedHash
                pageIndex := pageIndex
                pageSize := ⟨page.width, page.height⟩
                signatureBox := ⟨signatureData.x, signatureData.y,
                  signatureData.width, signatureData.height⟩
                imageInfo := ⟨imageWidth, imageHeight, fit.width, fit.height,
                  fit.offsetX, fit.offsetY⟩
                metadata := signatureData.metadata } }

/-- The loop body of signPDFMultiple (lines 215-219): thread the current buffer
through signPDF and push each audit log; nows i models the wall clock read
during step i. -/
def signLoop (debugBox : Bool) (nows : Nat → String) :
    PDFBytes → List SignatureData → Nat → List AuditLog →
    Except SignError (PDFBytes × List AuditLog)
  | currentBuffer, [], _, auditTrail => .ok (currentBuffer, auditTrail)
  | currentBuffer, sig :: rest, i, auditTrail =>
    match signPDF debugBox (nows i) currentBuffer sig with
    | .error e => .error e
    | .ok result =>
      signLoop debugBox nows result.signedPDFBuffer rest (i + 1)
        (auditTrail ++ [result.auditLog])

/-- The return record of signPDFMultiple. -/
structure MultiSignResult where
  signedPDFBuffer : PDFBytes
  originalHash : Digest
  signedHash : Digest
  auditTrail : List AuditLog
  deriving DecidableEq, Repr

/-- signPDFMultiple (lines 209-229 of the signer): hash the original buffer,
apply signPDF sequentially over the placements, then hash the final buffer. -/
def signPDFMultiple (debugBox : Bool) (nows : Nat → String)
    (originalPDFBuffer : PDFBytes) (signatures : List SignatureData) :
    Except SignError MultiSignResult :=
  let originalHash := computeSHA256 originalPDFBuffer
  match signLoop debugBox nows originalPDFBuffer signatures 0 [] with
  | .error e => .error e
  | .ok (finalBuffer, auditTrail) =>
    .ok
      { signedPDFBuffer := finalBuffer
        originalHash := originalHash
        signedHash := computeSHA256 finalBuffer
        auditTrail := auditTrail }

/-- Spec-side statement of sequential multi-placement composition: each step
output feeds the next step input, and the per-step audit fragments are
collected in placement order. -/
def sequentialChain (debugBox : Bool) (nows : Nat → String) :
    PDFBytes → List SignatureData → Nat →
    Except SignError (PDFBytes × List AuditLog)
  | buffer, [], _ => .ok (buffer, [])
  | buffer, sig :: rest, i =>
    match signPDF debugBox (nows i) buffer sig with
    | .error e => .error e
    | .ok result =>
      match sequentialChain debugBox nows result.signedPDFBuffer rest (i + 1) with
      | .error e => .error e
      | .ok (finalBuffer, logs) => .ok (finalBuffer, result.auditLog :: logs)

/-! ## Helper lemmas for the coordinate transform engine -/

theorem clamp01_nonneg (v : ℚ) : 0 ≤ clamp01 v := le_max_left 0 _

theorem clamp01_le_one (v : ℚ) : clamp01 v ≤ 1 :=
  max_le zero_le_one (min_le_left 1 v)

theorem clamp01_of_mem (v : ℚ) (h0 : 0 ≤ v) (h1 : v ≤ 1) : clamp01 v = v := by
  unfold clamp01
  rw [min_eq_right h1, max_eq_right h0]

theorem containFit_scaleFactor_pos (cs ps : Size) (hcw : 0 < cs.width)
    (hch : 0 < cs.height) (hpw : 0 < ps.width) (hph : 0 < ps.height) :
    0 < (containFit cs ps).scaleFactor := by
  simp only [containFit]
  split
  · exact div_pos hcw hpw
  · exact div_pos hch hph

/-- Algebraic core of the round trip: converting the unclamped normalized
rectangle to PDF points and mapping back through transformPDFToFrontend is the
identity, because forward and reverse recompute identical contain-fit
parameters from the same viewport/page pair. -/
theorem transformPDFToFrontend_retracts (fc : Rect) (cs ps : Size)
    (hpw : ps.width ≠ 0) (hph : ps.height ≠ 0)
    (hs : (containFit cs ps).scaleFactor ≠ 0) :
    transformPDFToFrontend (normalizedToPDFPoints (unclampedNormalized fc cs ps) ps) cs ps = fc := by
  obtain ⟨X, Y, W, H⟩ := fc
  simp only [transformPDFToFrontend, normalizedToPDFPoints, unclampedNormalized, Rect.mk.injEq]
  refine ⟨?_, ?_, ?_, ?_⟩ <;> field_simp <;> ring

/-- The forward transform clamps no component: each pre-clamp normalized value
already lies in [0, 1]. -/
def noClamping (fc : Rect) (cs ps : Size) : Prop :=
  0 ≤ (unclampedNormalized fc cs ps).x ∧ (unclampedNormalized fc cs ps).x ≤ 1 ∧
  0 ≤ (unclampedNormalized fc cs ps).y ∧ (unclampedNormalized fc cs ps).y ≤ 1 ∧
  0 ≤ (unclampedNormalized fc cs ps).width ∧ (unclampedNormalized fc cs ps).width ≤ 1 ∧
  0 ≤ (unclampedNormalized fc cs ps).height ∧ (unclampedNormalized fc cs ps).height ≤ 1

instance (fc : Rect) (cs ps : Size) : Decidable (noClamping fc cs ps) := by
  unfold noClamping
  infer_instance

/-- Componentwise closeness of two rectangles within a tolerance. -/
def rectClose (a b : Rect) (tol : ℚ) : Prop :=
  |a.x - b.x| < tol ∧ |a.y - b.y| < tol ∧
  |a.width - b.width| < tol ∧ |a.height - b.height| < tol

theorem normalizeCore_of_noClamping (fc : Rect) (cs ps : Size) (h : noClamping fc cs ps) :
    normalizeCore fc cs ps = unclampedNormalized fc cs ps := by
  obtain ⟨h1, h2, h3, h4, h5, h6, h7, h8⟩ := h
  have heta : unclampedNormalized fc cs ps =
      ⟨(unclampedNormalized fc cs ps).x, (unclampedNormalized fc cs ps).y,
       (unclampedNormalized fc cs ps).width, (unclampedNormalized fc cs ps).height⟩ := rfl
  rw [normalizeCore, heta]
  simp only [Rect.mk.injEq]
  exact ⟨clamp01_of_mem _ h1 h2, clamp01_of_mem _ h3 h4,
    clamp01_of_mem _ h5 h6, clamp01_of_mem _ h7 h8⟩

/-- C1: for every rectangle, viewport frame, and page geometry with positive
dimensions such that the forward transform clamps no component, applying
transformFrontendToPDF and then transformPDFToFrontend (with the same viewport
and page) returns a rectangle whose x, y, width, and height each differ from
the original by less than 1 unit (in fact, in exact arithmetic, by 0). -/
theorem transformFrontendToPDF_roundTrip (fc : Rect) (cs ps : Size)
    (hcw : 0 < cs.width) (hch : 0 < cs.height)
    (hpw : 0 < ps.width) (hph : 0 < ps.height)
    (hnc : noClamping fc cs ps) :
    ∀ r, transformFrontendToPDF (some fc) (some cs) (some ps) = .ok r →
      rectClose (transformPDFToFrontend r.pdfPoints cs ps) fc 1 := by
  intro r hr
  simp only [transformFrontendToPDF, Except.ok.injEq] at hr
  subst hr
  rw [normalizeCore_of_noClamping fc cs ps hnc,
    transformPDFToFrontend_retracts fc cs ps hpw.ne' hph.ne'
      (containFit_scaleFactor_pos cs ps hcw hch hpw hph).ne']
  norm_num [rectClose]

/-- Witness for C1: a concrete unclamped placement on a 100x200 page in a
100x200 viewport round-trips within 1 unit. -/
theorem transformFrontendToPDF_roundTrip_witness :
    rectClose (transformPDFToFrontend ⟨10, 140, 30, 40⟩ ⟨100, 200⟩ ⟨100, 200⟩) ⟨10, 20, 30, 40⟩ 1 :=
  transformFrontendToPDF_roundTrip ⟨10, 20, 30, 40⟩ ⟨100, 200⟩ ⟨100, 200⟩
    (by norm_num) (by norm_num) (by norm_num) (by norm_num)
    (by norm_num [noClamping, unclampedNormalized, containFit])
    ⟨⟨10, 140, 30, 40⟩, ⟨1/10, 1/10, 3/10, 1/5⟩⟩
    (by norm_num [transformFrontendToPDF, normalizeCore, unclampedNormalized, containFit,
      clamp01, max_def, min_def, normalizedToPDFPoints])

/-- C2 counterexample: for the out-of-page placement rect (150, 0, 200, 10) in
a 100x100 viewport over a 100x100 page, normalizeFrontendCoordinates returns
(1, 0, 1, 1/10) — each component clamped independently — whose x + width = 2
exceeds 1, so isValidNormalizedCoordinate rejects it. -/
theorem normalizeFrontendCoordinates_isValid_cex :
    normalizeFrontendCoordinates (some ⟨150, 0, 200, 10⟩) (some ⟨100, 100⟩) (some ⟨100, 100⟩)
      = .ok ⟨1, 0, 1, 1/10⟩ ∧
    isValidNormalizedCoordinate ⟨1, 0, 1, 1/10⟩ = false := by
  constructor
  · norm_num [normalizeFrontendCoordinates, normalizeCore, unclampedNormalized, containFit,
      clamp01, max_def, min_def]
  · norm_num [isValidNormalizedCoordinate]

/-- C2 (amended): for every input rectangle, given a viewport and page with
positive dimensions, each component of the rectangle returned by
normalizeFrontendCoordinates lies in [0, 1]; the full
isValidNormalizedCoordinate predicate need not hold, because the components
are clamped independently. -/
theorem normalizeFrontendCoordinates_components_clamped (fc : Rect) (cs ps : Size)
    (_hcw : 0 < cs.width) (_hch : 0 < cs.height) (_hpw : 0 < ps.width) (_hph : 0 < ps.height) :
    ∀ r, normalizeFrontendCoordinates (some fc) (some cs) (some ps) = .ok r →
      0 ≤ r.x ∧ r.x ≤ 1 ∧ 0 ≤ r.y ∧ r.y ≤ 1 ∧
      0 ≤ r.width ∧ r.width ≤ 1 ∧ 0 ≤ r.height ∧ r.height ≤ 1 := by
  intro r hr
  simp only [normalizeFrontendCoordinates, Except.ok.injEq] at hr
  subst hr
  simp only [normalizeCore]
  exact ⟨clamp01_nonneg _, clamp01_le_one _, clamp01_nonneg _, clamp01_le_one _,
    clamp01_nonneg _, clamp01_le_one _, clamp01_nonneg _, clamp01_le_one _⟩

/-- Witness for the amended C2 at a concrete in-page placement. -/
theorem normalizeFrontendCoordinates_components_clamped_witness :
    0 ≤ (Rect.mk (1/10) (1/10) (3/10) (1/5)).x ∧ (Rect.mk (1/10) (1/10) (3/10) (1/5)).x ≤ 1 ∧
    0 ≤ (Rect.mk (1/10) (1/10) (3/10) (1/5)).y ∧ (Rect.mk (1/10) (1/10) (3/10) (1/5)).y ≤ 1 ∧
    0 ≤ (Rect.mk (1/10) (1/10) (3/10) (1/5)).width ∧
      (Rect.mk (1/10) (1/10) (3/10) (1/5)).width ≤ 1 ∧
    0 ≤ (Rect.mk (1/10) (1/10) (3/10) (1/5)).height ∧
      (Rect.mk (1/10) (1/10) (3/10) (1/5)).height ≤ 1 :=
  normalizeFrontendCoordinates_components_clamped ⟨10, 20, 30, 40⟩ ⟨100, 200⟩ ⟨100, 200⟩
    (by norm_num) (by norm_num) (by norm_num) (by norm_num)
    ⟨1/10, 1/10, 3/10, 1/5⟩
    (by norm_num [normalizeFrontendCoordinates, normalizeCore, unclampedNormalized, containFit,
      clamp01, max_def, min_def])

/-- C4 counterexample: with a zero container height (degenerate geometry) and
every parameter present, normalizeFrontendCoordinates does not fail — there is
no InvalidGeometry error path in the code. -/
theorem normalize_degenerate_cex :
    isError (normalizeFrontendCoordinates (some ⟨0, 0, 1, 1⟩) (some ⟨1, 0⟩) (some ⟨1, 1⟩)) = false := rfl

/-- C4 (amended): normalizeFrontendCoordinates and transformFrontendToPDF
throw exactly when a required parameter is absent; zero or negative viewport
or page dimensions raise no error — the arithmetic proceeds and the result is
clamped componentwise. -/
theorem normalize_error_iff_missing (fc : Option Rect) (cs ps : Option Size) :
    (isError (normalizeFrontendCoordinates fc cs ps) = true ↔
      (fc = none ∨ cs = none ∨ ps = none)) ∧
    (isError (transformFrontendToPDF fc cs ps) = true ↔
      (fc = none ∨ cs = none ∨ ps = none)) := by
  cases fc <;> cases cs <;> cases ps <;>
    simp [isError, normalizeFrontendCoordinates, transformFrontendToPDF]

/-- Witness for the amended C4: with all parameters present no error occurs. -/
theorem normalize_error_iff_missing_witness :
    isError (normalizeFrontendCoordinates (some ⟨1, 2, 3, 4⟩) (some ⟨5, 6⟩) (some ⟨7, 8⟩)) = false := by
  have h := (normalize_error_iff_missing (some ⟨1, 2, 3, 4⟩) (some ⟨5, 6⟩) (some ⟨7, 8⟩)).1
  simpa using h

/-- C9: when the coordinates object, the container-size object, or the
page-size object is absent, normalizeFrontendCoordinates (and hence
transformFrontendToPDF) throws the missing-required-parameters error. -/
theorem normalize_missing_params (fc : Option Rect) (cs ps : Option Size)
    (h : fc = none ∨ cs = none ∨ ps = none) :
    normalizeFrontendCoordinates fc cs ps =
      .error "Missing required parameters for coordinate normalization" ∧
    transformFrontendToPDF fc cs ps =
      .error "Missing required parameters for coordinate normalization" := by
  rcases h with rfl | rfl | rfl
  · exact ⟨rfl, rfl⟩
  · cases fc <;> exact ⟨rfl, rfl⟩
  · cases fc <;> cases cs <;> exact ⟨rfl, rfl⟩

/-- Witness for C9: absent coordinates object. -/
theorem normalize_missing_params_witness :
    normalizeFrontendCoordinates none (some ⟨1, 1⟩) (some ⟨1, 1⟩) =
      .error "Missing required parameters for coordinate normalization" ∧
    transformFrontendToPDF none (some ⟨1, 1⟩) (some ⟨1, 1⟩) =
      .error "Missing required parameters for coordinate normalization" :=
  normalize_missing_params none (some ⟨1, 1⟩) (some ⟨1, 1⟩) (Or.inl rfl)

theorem clamp01_sum_of_overflow (a b : ℚ) (ha : 0 ≤ a) (hab : 1 < a + b) :
    1 ≤ clamp01 a + clamp01 b := by
  rcases le_or_lt 1 a with h | h
  · have h1 : clamp01 a = 1 := by
      unfold clamp01
      rw [min_eq_left h, max_eq_right zero_le_one]
    have h2 := clamp01_nonneg b
    linarith [h1.ge.trans_eq rfl]
  · have hca : clamp01 a = a := clamp01_of_mem a ha h.le
    rcases le_or_lt 1 b with h2 | h2
    · have hcb : clamp01 b = 1 := by
        unfold clamp01
        rw [min_eq_left h2, max_eq_right zero_le_one]
      rw [hca, hcb]
      linarith
    · have hb0 : 0 ≤ b := by linarith
      have hcb : clamp01 b = b := clamp01_of_mem b hb0 h2.le
      rw [hca, hcb]
      linarith

/-- C7 counterexample: the placement rect (50, 0, 80, 10) in a 100x100
viewport over a 100x100 page projects to x + width = 13/10 > 1 in page units,
yet the returned normalized rect is (1/2, 0, 4/5, 1/10): its x + width is
13/10, not 1 — the width is not clamped relative to x. -/
theorem normalize_rightEdge_cex :
    1 < (unclampedNormalized ⟨50, 0, 80, 10⟩ ⟨100, 100⟩ ⟨100, 100⟩).x +
        (unclampedNormalized ⟨50, 0, 80, 10⟩ ⟨100, 100⟩ ⟨100, 100⟩).width ∧
    normalizeFrontendCoordinates (some ⟨50, 0, 80, 10⟩) (some ⟨100, 100⟩) (some ⟨100, 100⟩)
      = .ok ⟨1/2, 0, 4/5, 1/10⟩ ∧
    (1/2 : ℚ) + 4/5 ≠ 1 := by
  refine ⟨?_, ?_, ?_⟩
  · norm_num [unclampedNormalized, containFit]
  · norm_num [normalizeFrontendCoordinates, normalizeCore, unclampedNormalized, containFit,
      clamp01, max_def, min_def]
  · norm_num

/-- C7 (amended): for a placement rect whose projected origin is at or right
of the page left edge and whose projected x + width exceeds 1, the returned
normalized rect satisfies 1 ≤ x + width ≤ 2 (components clamped to [0, 1]
independently); x + width = 1 exactly is not guaranteed. -/
theorem normalize_rightEdge_clamping (fc : Rect) (cs ps : Size)
    (_hcw : 0 < cs.width) (_hch : 0 < cs.height) (_hpw : 0 < ps.width) (_hph : 0 < ps.height)
    (hx : 0 ≤ (unclampedNormalized fc cs ps).x)
    (hover : 1 < (unclampedNormalized fc cs ps).x + (unclampedNormalized fc cs ps).width) :
    ∀ r, normalizeFrontendCoordinates (some fc) (some cs) (some ps) = .ok r →
      1 ≤ r.x + r.width ∧ r.x + r.width ≤ 2 := by
  intro r hr
  simp only [normalizeFrontendCoordinates, Except.ok.injEq] at hr
  subst hr
  simp only [normalizeCore]
  refine ⟨clamp01_sum_of_overflow _ _ hx hover, ?_⟩
  have h1 := clamp01_le_one (unclampedNormalized fc cs ps).x
  have h2 := clamp01_le_one (unclampedNormalized fc cs ps).width
  linarith

/-- Witness for the amended C7 at the same overflowing placement. -/
theorem normalize_rightEdge_clamping_witness :
    1 ≤ (Rect.mk (1/2) 0 (4/5) (1/10)).x + (Rect.mk (1/2) 0 (4/5) (1/10)).width ∧
    (Rect.mk (1/2) 0 (4/5) (1/10)).x + (Rect.mk (1/2) 0 (4/5) (1/10)).width ≤ 2 :=
  normalize_rightEdge_clamping ⟨50, 0, 80, 10⟩ ⟨100, 100⟩ ⟨100, 100⟩
    (by norm_num) (by norm_num) (by norm_num) (by norm_num)
    (by norm_num [unclampedNormalized, containFit])
    (by norm_num [unclampedNormalized, containFit])
    ⟨1/2, 0, 4/5, 1/10⟩
    (by norm_num [normalizeFrontendCoordinates, normalizeCore, unclampedNormalized, containFit,
      clamp01, max_def, min_def])

/-- C6: for all positive imageWidth, imageHeight, boxWidth, boxHeight, the
result of calculateFitDimensions fits inside the box, preserves the aspect
ratio (exactly, in rational arithmetic, hence within the claimed 1e-9), and
touches the box on at least one axis. -/
theorem calculateFitDimensions_spec (imageWidth imageHeight boxWidth boxHeight : ℚ)
    (hiw : 0 < imageWidth) (hih : 0 < imageHeight)
    (hbw : 0 < boxWidth) (hbh : 0 < boxHeight) :
    (calculateFitDimensions imageWidth imageHeight boxWidth boxHeight).width ≤ boxWidth ∧
    (calculateFitDimensions imageWidth imageHeight boxWidth boxHeight).height ≤ boxHeight ∧
    |(calculateFitDimensions imageWidth imageHeight boxWidth boxHeight).width /
        (calculateFitDimensions imageWidth imageHeight boxWidth boxHeight).height -
      imageWidth / imageHeight| < 1 / 1000000000 ∧
    ((calculateFitDimensions imageWidth imageHeight boxWidth boxHeight).width = boxWidth ∨
      (calculateFitDimensions imageWidth imageHeight boxWidth boxHeight).height = boxHeight) := by
  have hA : 0 < imageWidth / imageHeight := div_pos hiw hih
  simp only [calculateFitDimensions]
  split
  case isTrue h =>
    refine ⟨le_refl _, ?_, ?_, Or.inl rfl⟩
    · rw [div_le_iff₀ hA]
      have h2 := (div_lt_iff₀ hbh).mp h
      linarith [mul_comm (imageWidth / imageHeight) boxHeight]
    · have hbwA : boxWidth / (boxWidth / (imageWidth / imageHeight)) = imageWidth / imageHeight := by
        field_simp
        ring
      rw [hbwA, sub_self, abs_zero]
      norm_num
  case isFalse h =>
    refine ⟨?_, le_refl _, ?_, Or.inr rfl⟩
    · have h2 := (le_div_iff₀ hbh).mp (not_lt.mp h)
      linarith [mul_comm (imageWidth / imageHeight) boxHeight]
    · have hbhA : boxHeight * (imageWidth / imageHeight) / boxHeight = imageWidth / imageHeight := by
        field_simp
        ring
      rw [hbhA, sub_self, abs_zero]
      norm_num

/-- Witness for C6: a 256x128 image fit into a 100x100 box (the spec scenario,
yielding fit 100x50). -/
theorem calculateFitDimensions_spec_witness :
    (calculateFitDimensions 256 128 100 100).width ≤ 100 ∧
    (calculateFitDimensions 256 128 100 100).height ≤ 100 ∧
    |(calculateFitDimensions 256 128 100 100).width /
        (calculateFitDimensions 256 128 100 100).height - 256 / 128| < 1 / 1000000000 ∧
    ((calculateFitDimensions 256 128 100 100).width = 100 ∨
      (calculateFitDimensions 256 128 100 100).height = 100) :=
  calculateFitDimensions_spec 256 128 100 100
    (by norm_num) (by norm_num) (by norm_num) (by norm_num)

/-! ## Overlay engine claims -/

/-- A well-formed one-page 100x100 document used by the concrete instances. -/
def onePageDoc : PDFLibDoc := ⟨[⟨100, 100, []⟩]⟩

/-- A placement whose payload declares png (both by imageType and by the data
URI marker), whose png decode fails, and whose jpeg decode would succeed. -/
def sigDeclaredPngBad : SignatureData :=
  { image := { containsPng := true, containsJpeg := false,
               pngDecode := none, jpegDecode := some (2, 1) }
    imageType := some "png", x := 0, y := 0, width := 10, height := 10
    pageIndex := .num 0, metadata := [] }

/-- A placement whose payload decodes as a 2x1 png. -/
def goodSig : SignatureData :=
  { image := { containsPng := true, containsJpeg := false,
               pngDecode := some (2, 1), jpegDecode := none }
    imageType := none, x := 0, y := 0, width := 10, height := 10
    pageIndex := .num 0, metadata := [] }

/-- A placement with no declared encoding, no format marker in the string, and
no decodable payload. -/
def sigUndeclared : SignatureData :=
  { image := { containsPng := false, containsJpeg := false,
               pngDecode := none, jpegDecode := none }
    imageType := none, x := 0, y := 0, width := 10, height := 10
    pageIndex := .num 0, metadata := [] }

theorem resolve_falsy (p : JSPageIndex) (h : p.isFalsy = true) : resolvePageIndex p = 0 := by
  cases p <;> simp_all [JSPageIndex.isFalsy, resolvePageIndex]

theorem embedImage_error_eq (sd : SignatureData) (e : SignError)
    (h : embedImage sd = .error e) : e = .embedFailed := by
  unfold embedImage at h
  split at h
  · cases hpd : sd.image.pngDecode <;> rw [hpd] at h <;> simp_all
  · split at h
    · cases hjd : sd.image.jpegDecode <;> rw [hjd] at h <;> simp_all
    · cases hpd : sd.image.pngDecode <;> rw [hpd] at h
      · cases hjd : sd.image.jpegDecode <;> rw [hjd] at h <;> simp_all
      · simp_all

/-- C3 counterexample: for a payload that declares png but fails png decode
while jpeg decode would succeed, signPDF executes the png embed only — the
attempt list is [png], no jpeg fallback runs — and the operation fails with
the embed error. -/
theorem signPDF_no_fallback_cex :
    embedAttempts sigDeclaredPngBad = [ImgKind.png] ∧
    signPDF false "2024-01-01T00:00:00.000Z" (.wellFormed onePageDoc) sigDeclaredPngBad
      = .error .embedFailed := by
  constructor
  · rfl
  · rfl

/-- C3 (amended): the try-png-then-jpeg fallback runs only when no encoding is
declared and the payload string carries neither format marker; in that case a
failing png attempt is followed by exactly one jpeg attempt, whose outcome
decides the operation. (When an encoding is declared, only that decoder is
attempted — see the counterexample.) -/
theorem embed_fallback_only_undeclared (sd : SignatureData)
    (h1 : (sd.imageType == some "png" || sd.image.containsPng) = false)
    (h2 : (sd.imageType == some "jpeg" || sd.image.containsJpeg) = false)
    (h3 : sd.image.pngDecode = none) :
    embedAttempts sd = [ImgKind.png, ImgKind.jpeg] ∧
    (sd.image.jpegDecode = none → embedImage sd = .error .embedFailed) ∧
    (∀ w h, sd.image.jpegDecode = some (w, h) → embedImage sd = .ok (w, h)) := by
  refine ⟨?_, ?_, ?_⟩
  · simp [embedAttempts, h1, h2, h3]
  · intro h4
    simp [embedImage, h1, h2, h3, h4]
  · intro w h h4
    simp [embedImage, h1, h2, h3, h4]

/-- Witness for the amended C3 at a concrete undeclared, undecodable payload. -/
theorem embed_fallback_only_undeclared_witness :
    embedAttempts sigUndeclared = [ImgKind.png, ImgKind.jpeg] ∧
    (sigUndeclared.image.jpegDecode = none → embedImage sigUndeclared = .error .embedFailed) ∧
    (∀ w h, sigUndeclared.image.jpegDecode = some (w, h) → embedImage sigUndeclared = .ok (w, h)) :=
  embed_fallback_only_undeclared sigUndeclared rfl rfl rfl

/-- C5 counterexample: two signPDF calls with byte-identical buffer and
placement but different wall-clock readings return different results — the
audit log embeds a timestamp generated inside the operation, refuting the
claim that no wall-clock-dependent value is generated internally. -/
theorem signPDF_wallclock_cex :
    signPDF false "2024-01-01T00:00:00.000Z" (.wellFormed onePageDoc) goodSig ≠
    signPDF false "2024-01-02T00:00:00.000Z" (.wellFormed onePageDoc) goodSig := by
  norm_num [signPDF, PDFDocument.load, resolvePageIndex, embedImage,
    calculateFitDimensions, drawOnPage, drawOnPages, PDFDocument.save, computeSHA256,
    goodSig, onePageDoc, Except.ok.injEq, SignPDFResult.mk.injEq, AuditLog.mk.injEq]
  decide

/-- C5 (amended): with byte-identical inputs, the returned signed buffer and
both digests are identical regardless of the wall clock; only the audit log
(through its internally generated timestamp) is clock-dependent. -/
theorem signPDF_buffer_clock_independent (debugBox : Bool) (now1 now2 : String)
    (buf : PDFBytes) (sd : SignatureData) :
    (signPDF debugBox now1 buf sd).map SignPDFResult.signedPDFBuffer =
      (signPDF debugBox now2 buf sd).map SignPDFResult.signedPDFBuffer ∧
    (signPDF debugBox now1 buf sd).map SignPDFResult.originalHash =
      (signPDF debugBox now2 buf sd).map SignPDFResult.originalHash ∧
    (signPDF debugBox now1 buf sd).map SignPDFResult.signedHash =
      (signPDF debugBox now2 buf sd).map SignPDFResult.signedHash := by
  cases buf with
  | malformed id => exact ⟨rfl, rfl, rfl⟩
  | wellFormed doc =>
    simp only [signPDF, PDFDocument.load]
    by_cases hc : resolvePageIndex sd.pageIndex < 0 ∨
        (doc.pages.length : Int) ≤ resolvePageIndex sd.pageIndex
    · simp [hc]
    · simp only [if_neg hc]
      cases hm : embedImage sd with
      | error e => simp [hm]
      | ok dims =>
        obtain ⟨w, h⟩ := dims
        simp [hm, Except.map]

theorem signLoop_eq_chain (debugBox : Bool) (nows : Nat → String) (sigs : List SignatureData) :
    ∀ buf i acc, signLoop debugBox nows buf sigs i acc =
      (sequentialChain debugBox nows buf sigs i).map (fun r => (r.1, acc ++ r.2)) := by
  induction sigs with
  | nil =>
    intro buf i acc
    simp [signLoop, sequentialChain, Except.map]
  | cons sig rest ih =>
    intro buf i acc
    simp only [signLoop, sequentialChain]
    cases signPDF debugBox (nows i) buf sig with
    | error e => simp [Except.map]
    | ok result =>
      dsimp only
      rw [ih]
      cases sequentialChain debugBox nows result.signedPDFBuffer rest (i + 1) with
      | error e => simp [Except.map]
      | ok pr => simp [Except.map]

/-- C8: signPDFMultiple is exactly the sequential chain of signPDF steps —
each step output buffer feeding the next step input — returning the final
buffer, the digest of the original input buffer (not of any intermediate
buffer), the digest of the final buffer, and the per-step audit fragments in
placement order. -/
theorem signPDFMultiple_sequential (debugBox : Bool) (nows : Nat → String)
    (originalPDFBuffer : PDFBytes) (signatures : List SignatureData) :
    signPDFMultiple debugBox nows originalPDFBuffer signatures =
      (sequentialChain debugBox nows originalPDFBuffer signatures 0).map
        (fun r =>
          { signedPDFBuffer := r.1
            originalHash := computeSHA256 originalPDFBuffer
            signedHash := computeSHA256 r.1
            auditTrail := r.2 }) := by
  simp only [signPDFMultiple]
  rw [signLoop_eq_chain]
  cases sequentialChain debugBox nows originalPDFBuffer signatures 0 with
  | error e => simp [Except.map]
  | ok pr => simp [Except.map]

/-- C10: a falsy pageIndex (undefined, null, NaN, or 0) resolves to 0; with at
least one page, no invalid-page-index error can be raised for such a
placement, and when the image embeds the signature is composited onto page 0;
the invalid-page-index error arises exactly for a resolved index that is
negative or at least the page count, and its message embeds the actual page
count. -/
theorem signPDF_pageIndex_policy (debugBox : Bool) (now : String) (doc : PDFLibDoc)
    (sd : SignatureData) :
    (sd.pageIndex.isFalsy = true → resolvePageIndex sd.pageIndex = 0) ∧
    (sd.pageIndex.isFalsy = true → 0 < doc.pages.length →
      ∀ i t, signPDF debugBox now (.wellFormed doc) sd ≠ .error (.invalidPageIndex i t)) ∧
    (sd.pageIndex.isFalsy = true → 0 < doc.pages.length → ∀ w h,
      embedImage sd = .ok (w, h) → debugBox = false →
      ∃ op, (signPDF debugBox now (.wellFormed doc) sd).map SignPDFResult.signedPDFBuffer
        = Except.ok (PDFDocument.save (drawOnPage doc 0 op))) ∧
    (∀ i t, signPDF debugBox now (.wellFormed doc) sd = .error (.invalidPageIndex i t) →
      i = resolvePageIndex sd.pageIndex ∧ t = doc.pages.length ∧
      (i < 0 ∨ (t : Int) ≤ i)) ∧
    (∀ i t, ∃ pre post, (SignError.invalidPageIndex i t).message = pre ++ toString t ++ post) := by
  refine ⟨resolve_falsy sd.pageIndex, ?_, ?_, ?_, ?_⟩
  · intro hf hlen i t h
    have h0 := resolve_falsy sd.pageIndex hf
    simp only [signPDF, PDFDocument.load, h0] at h
    rw [if_neg (by omega)] at h
    cases hm : embedImage sd with
    | error e =>
      rw [hm] at h
      have he := embedImage_error_eq sd e hm
      subst he
      simp at h
    | ok dims =>
      obtain ⟨w, hgt⟩ := dims
      rw [hm] at h
      simp at h
  · intro hf hlen w h hm hdb
    subst hdb
    have h0 := resolve_falsy sd.pageIndex hf
    refine ⟨.drawImage (sd.x + (calculateFitDimensions w h sd.width sd.height).offsetX)
      (sd.y + (calculateFitDimensions w h sd.width sd.height).offsetY)
      (calculateFitDimensions w h sd.width sd.height).width
      (calculateFitDimensions w h sd.width sd.height).height w h, ?_⟩
    simp only [signPDF, PDFDocument.load, h0, hm]
    rw [if_neg (by omega)]
    simp [Except.map, PDFDocument.save]
  · intro i t h
    simp only [signPDF, PDFDocument.load] at h
    split at h
    case isTrue hc =>
      simp only [Except.error.injEq, SignError.invalidPageIndex.injEq] at h
      obtain ⟨h1, h2⟩ := h
      subst h1
      subst h2
      exact ⟨rfl, rfl, by omega⟩
    case isFalse hc =>
      cases hm : embedImage sd with
      | error e =>
        rw [hm] at h
        have he := embedImage_error_eq sd e hm
        subst he
        simp at h
      | ok dims =>
        obtain ⟨w, hgt⟩ := dims
        rw [hm] at h
        simp at h
  · intro i t
    exact ⟨"Invalid page index: " ++ toString i ++ ". Document has ", " pages.", rfl⟩

/-- Witness for C10: a placement with pageIndex 0 (falsy) on a one-page
document resolves to page 0 and does not raise the page-index error. -/
theorem signPDF_pageIndex_policy_witness :
    resolvePageIndex goodSig.pageIndex = 0 ∧
    signPDF false "t0" (.wellFormed onePageDoc) goodSig ≠ .error (.invalidPageIndex 0 1) :=
  ⟨(signPDF_pageIndex_policy false "t0" onePageDoc goodSig).1 rfl,
   (signPDF_pageIndex_policy false "t0" onePageDoc goodSig).2.1 rfl (by norm_num [onePageDoc]) 0 1⟩

end SigEngine
